import Mathlib

/-!
Verification of the Python crash-course repository's OOP exercise notebook
(`src/exercises/oop-exercises.ipynb`), the exception-handling lesson
(`src/docs/core-concepts/exception-handling.md`), and the scratch-file
behaviour of the serialization and context-manager lessons
(`src/oop-applications/05_object-serialization.md`,
`src/core-concepts/context-managers.md`).

Each Python class is embedded as a Lean structure; mutating methods become
pure functions returning the updated object (with printed lines or a raised
exception carried explicitly). Python integers are `Int`; f-strings become
explicit concatenation with `toString`.
-/

namespace PyCrash

/-- `class Book` from the notebook: title, author, year set in `__init__`. -/
structure Book where
  title : String
  author : String
  year : Int
deriving DecidableEq

/-- `Book.get_info`: `f"{self.title} by {self.author}, published in {self.year}"`. -/
def Book.get_info (b : Book) : String :=
  b.title ++ " by " ++ b.author ++ ", published in " ++ toString b.year

/-- `class User` from the notebook: private name and age set in `__init__`
(the constructor applies no validity check). -/
structure User where
  name : String
  age : Int
deriving DecidableEq

/-- `User.get_user_info`: `f"User: {self.__name}, Age: {self.__age}"`. -/
def User.get_user_info (u : User) : String :=
  "User: " ++ u.name ++ ", Age: " ++ toString u.age

/-- `User.set_age`: if `new_age > 0` reassign `self.__age`, else print
`"Invalid age!"` and leave the object untouched. Result is the updated
user paired with the printed lines. -/
def User.set_age (u : User) (new_age : Int) : User × List String :=
  if new_age > 0 then ({ u with age := new_age }, [])
  else (u, ["Invalid age!"])

/-- `class Library` from the notebook. -/
structure Library where
  name : String
  books : List Book
deriving DecidableEq

/-- `Library.__init__`: stores the name and starts with an empty book list. -/
def Library.init (name : String) : Library :=
  { name := name, books := [] }

/-- `Library.add_book`: `self.books.append(book)`. -/
def Library.add_book (l : Library) (book : Book) : Library :=
  { l with books := l.books ++ [book] }

/-- `Library.__str__`: `f"Library: {self.name} with {len(self.books)} books"`. -/
def Library.toStr (l : Library) : String :=
  "Library: " ++ l.name ++ " with " ++ toString l.books.length ++ " books"

/-- `Library.__len__`: `len(self.books)`. -/
def Library.len (l : Library) : Nat :=
  l.books.length

/-- `class EBook(Book)`: adds `file_size`; `__init__` calls `super().__init__`. -/
structure EBook extends Book where
  file_size : Int
deriving DecidableEq

/-- `EBook.get_info`: `super().get_info() + f" (File size: {self.file_size}MB)"`. -/
def EBook.get_info (e : EBook) : String :=
  e.toBook.get_info ++ " (File size: " ++ toString e.file_size ++ "MB)"

/-- `class AudioBook(Book)`: adds `duration`; `__init__` calls `super().__init__`. -/
structure AudioBook extends Book where
  duration : Int
deriving DecidableEq

/-- `AudioBook.get_info`: `super().get_info() + f" (Duration: {self.duration} min)"`. -/
def AudioBook.get_info (a : AudioBook) : String :=
  a.toBook.get_info ++ " (Duration: " ++ toString a.duration ++ " min)"

/-- `class LibraryMember` from the notebook: composes a `User` and starts
with an empty `borrowed_books` list. -/
structure LibraryMember where
  user : User
  borrowed_books : List Book
deriving DecidableEq

/-- `LibraryMember.borrow_book`: `self.borrowed_books.append(book)`. -/
def LibraryMember.borrow_book (m : LibraryMember) (book : Book) : LibraryMember :=
  { m with borrowed_books := m.borrowed_books ++ [book] }

/-- `LibraryMember.get_borrowed_books`: list of `get_info` strings. -/
def LibraryMember.get_borrowed_books (m : LibraryMember) : List String :=
  m.borrowed_books.map Book.get_info

/-- `class Rating` from the notebook. -/
structure Rating where
  rating : Int
deriving DecidableEq

/-- `Rating.__add__`: `Rating(self.rating + other.rating)` (a fresh object;
the operands are not modified). -/
def Rating.add (a other : Rating) : Rating :=
  { rating := a.rating + other.rating }

/-- `Rating.__str__`: `f"Rating: {self.rating}/5"` (no clamping). -/
def Rating.toStr (r : Rating) : String :=
  "Rating: " ++ toString r.rating ++ "/5"

/-- Python dict assignment `d[k] = v`: replace the value at the first (unique)
occurrence of the key, otherwise append the binding. Models the `dct`
dictionary handled by the metaclass. -/
def dictSet : List (String × String) → String → String → List (String × String)
  | [], k, v => [(k, v)]
  | (k₁, v₁) :: rest, k, v =>
      if k₁ = k then (k, v) :: rest else (k₁, v₁) :: dictSet rest k v

/-- Python dict lookup `d[k]` / attribute lookup on the created class. -/
def dictGet (d : List (String × String)) (k : String) : Option String :=
  (d.find? (fun p => p.1 = k)).map Prod.snd

/-- `MetaBook.__new__`: writes `dct["category"] = "General"` over the class
dictionary before creating the class. -/
def MetaBook.new (dct : List (String × String)) : List (String × String) :=
  dictSet dct "category" "General"

/-- `class SpecialBook(metaclass=MetaBook): pass` — an empty class body,
so the class dictionary handed to the metaclass has no string-valued
attributes of interest. -/
def SpecialBook : List (String × String) :=
  MetaBook.new []

/-- Attribute access `SpecialBook.category`. -/
def SpecialBook.category : Option String :=
  dictGet SpecialBook "category"

/-! ### Replay of the notebook cells, top to bottom from a fresh kernel -/

/-- Cell 2: `book1 = Book("1984", "George Orwell", 1949)`. -/
def book1 : Book :=
  { title := "1984", author := "George Orwell", year := 1949 }

/-- Cell 4: `user1 = User("Alice", 28)`. -/
def user1 : User :=
  { name := "Alice", age := 28 }

/-- Cell 6: `library = Library("City Library"); library.add_book(book1)`. -/
def library : Library :=
  (Library.init "City Library").add_book book1

/-- Cell 8: `ebook1 = EBook("Python Guide", "John Doe", 2022, 5)`. -/
def ebook1 : EBook :=
  { title := "Python Guide", author := "John Doe", year := 2022, file_size := 5 }

/-- Cell 10: `audiobook1 = AudioBook("Learn Python", "Jane Doe", 2023, 300)`. -/
def audiobook1 : AudioBook :=
  { title := "Learn Python", author := "Jane Doe", year := 2023, duration := 300 }

/-- Cell 12: `member1 = LibraryMember(user1); member1.borrow_book(book1)`. -/
def member1 : LibraryMember :=
  LibraryMember.borrow_book { user := user1, borrowed_books := [] } book1

/-- Cell 14: `final_rating = rating1 + rating2` with ratings 4 and 5. -/
def final_rating : Rating :=
  Rating.add { rating := 4 } { rating := 5 }

/-- Python `repr` of a string without special characters: single quotes. -/
def pyStrRepr (s : String) : String :=
  "'" ++ s ++ "'"

/-- Python `print` of a list of plain strings: `['a', 'b']`. -/
def pyListRepr (xs : List String) : String :=
  "[" ++ String.intercalate ", " (xs.map pyStrRepr) ++ "]"

/-- The stdout lines of cell 16, `print(SpecialBook.category)`: the attribute
value when it exists, nothing (an `AttributeError`) otherwise. -/
def cell16Stdout : List String :=
  match SpecialBook.category with
  | some s => [s]
  | none => []

/-- All stdout lines produced by running the notebook cells top to bottom. -/
def notebookStdout : List String :=
  [ book1.get_info
  , user1.get_user_info
  , library.toStr
  , "Number of books: " ++ toString library.len
  , ebook1.get_info
  , audiobook1.get_info
  , pyListRepr member1.get_borrowed_books
  , final_rating.toStr
  ] ++ cell16Stdout

/-! ### File operations of the tutorial scratch-file examples -/

/-- A file-system operation performed by a tutorial example. -/
inductive FileOp where
  | create (name : String)
  | write (name : String)
  | read (name : String)
  | delete (name : String)
deriving DecidableEq

/-- Pickling example of `05_object-serialization.md`:
`with open("data.pkl", "wb") as file: pickle.dump(data, file)` —
opening for writing creates the file; no removal step follows. -/
def pickleDumpExample : List FileOp :=
  [.create "data.pkl", .write "data.pkl"]

/-- Unpickling example: `with open("data.pkl", "rb") as file: pickle.load(file)`. -/
def pickleLoadExample : List FileOp :=
  [.read "data.pkl"]

/-- JSON saving example of `05_object-serialization.md`:
`with open("data.json", "w") as file: json.dump(data, file, indent=4)` —
no removal step follows. -/
def jsonDumpExample : List FileOp :=
  [.create "data.json", .write "data.json"]

/-- JSON loading example: `with open("data.json", "r") as file: json.load(file)`. -/
def jsonLoadExample : List FileOp :=
  [.read "data.json"]

/-- `finally` example of `exception-handling.md`: `file = open("data.txt", "r")`
then `file.close()` — the file is only read, never created. -/
def finallyCloseExample : List FileOp :=
  [.read "data.txt"]

/-- `temporary_file` context manager of `context-managers.md`: creates a named
temporary file, yields its name, and `os.remove`s it in the `finally` block. -/
def temporaryFileExample (tempName : String) : List FileOp :=
  [.create tempName, .delete tempName]

/-- Files an example creates. -/
def createdFiles (ops : List FileOp) : List String :=
  ops.filterMap fun op =>
    match op with
    | .create n => some n
    | _ => none

/-- Files an example deletes. -/
def deletedFiles (ops : List FileOp) : List String :=
  ops.filterMap fun op =>
    match op with
    | .delete n => some n
    | _ => none

/-- The example deletes every file it creates. -/
def leavesNoScratch (ops : List FileOp) : Prop :=
  ∀ n ∈ createdFiles ops, n ∈ deletedFiles ops

instance (ops : List FileOp) : Decidable (leavesNoScratch ops) :=
  List.decidableBAll _ _

/-! ### Exception-handling lesson examples -/

/-- `check_age` from the lesson: raise `ValueError("Age cannot be negative.")`
when `age < 0`, otherwise print `"Valid age."`. Result is the printed lines
paired with the raised exception message, if any. -/
def check_age (age : Int) : List String × Option String :=
  if age < 0 then ([], some "Age cannot be negative.")
  else (["Valid age."], none)

/-- `class BankAccount` of the custom-exceptions example. -/
structure BankAccount where
  balance : Int
deriving DecidableEq

/-- `BankAccount.withdraw`: raise `InsufficientFundsError` when
`amount > self.balance` (the raise happens before any mutation, so the
balance is untouched), otherwise `self.balance -= amount`. Result is the
account after the call paired with the raised exception message, if any. -/
def BankAccount.withdraw (acct : BankAccount) (amount : Int) :
    BankAccount × Option String :=
  if amount > acct.balance then
    (acct, some "Insufficient funds for this transaction.")
  else
    ({ acct with balance := acct.balance - amount }, none)

/-! ### A heap-like state for the frame claim about borrowing -/

/-- The objects alive while `borrow_book` runs: the member receiving the call
and every `Library` object in the program. `borrow_book`'s body touches only
`self.borrowed_books`, so borrowing updates just the member. -/
structure LibState where
  member : LibraryMember
  libraries : List Library
deriving DecidableEq

/-- `member.borrow_book(book)` executed in a state holding every library:
the translation of the method body, which appends to `self.borrowed_books`
and names no other object. -/
def LibState.borrow (s : LibState) (book : Book) : LibState :=
  { s with member := s.member.borrow_book book }

/-! ### Helper lemmas -/

/-- Folding `add_book` over a list of books appends the list to `books`. -/
theorem books_foldl_add_book (bs : List Book) (l : Library) :
    (bs.foldl Library.add_book l).books = l.books ++ bs := by
  induction bs generalizing l with
  | nil => simp
  | cons b rest ih =>
      simp [List.foldl_cons, ih, Library.add_book, List.append_assoc]

/-- After `d[k] = v`, looking up `k` yields `v`, whatever `d` held before. -/
theorem dictGet_dictSet_self (d : List (String × String)) (k v : String) :
    dictGet (dictSet d k v) k = some v := by
  induction d with
  | nil => simp [dictSet, dictGet, List.find?]
  | cons p rest ih =>
      by_cases h : p.1 = k
      · simp [dictSet, h, dictGet, List.find?]
      · simpa [dictSet, h, dictGet, List.find?] using ih

/-! ### Claims -/

/-- C1 (counterexample): the spec's "no state transitions beyond object
construction" fails on the code: adding `book1` to the freshly built City
Library yields a different object. -/
theorem add_book_changes_library_state :
    (Library.init "City Library").add_book book1 ≠ Library.init "City Library" := by
  decide

/-- C1 (amended): method calls after construction do change object state:
`Library.add_book` and `LibraryMember.borrow_book` always produce a changed
object, and `User.set_age` with a positive age differing from the current one
changes the user. -/
theorem mutators_change_state (l : Library) (b : Book) (m : LibraryMember)
    (u : User) (n : Int) :
    l.add_book b ≠ l ∧ m.borrow_book b ≠ m ∧
      (0 < n → n ≠ u.age → (u.set_age n).1 ≠ u) := by
  refine ⟨fun h => ?_, fun h => ?_, fun hn hne h => ?_⟩
  · have := congrArg (fun x => x.books.length) h
    simp [Library.add_book] at this
  · have := congrArg (fun x => x.borrowed_books.length) h
    simp [LibraryMember.borrow_book] at this
  · rw [User.set_age, if_pos hn] at h
    exact hne (congrArg User.age h)

/-- C1 (witness): the amended theorem at the notebook's own objects and a
concrete positive age. -/
theorem mutators_change_state_witness :
    library.add_book book1 ≠ library ∧ member1.borrow_book book1 ≠ member1 ∧
      (user1.set_age 30).1 ≠ user1 :=
  ⟨(mutators_change_state library book1 member1 user1 30).1,
   (mutators_change_state library book1 member1 user1 30).2.1,
   (mutators_change_state library book1 member1 user1 30).2.2 (by decide) (by decide)⟩

/-- C2: `Rating.__add__` returns a fresh `Rating` whose field is the sum of
the operands' fields (a pure operation, so the operands are untouched), its
`__str__` is `"Rating: {sum}/5"` with no clamping, and
`Rating(4) + Rating(5)` prints `"Rating: 9/5"`. -/
theorem rating_add_spec (a b : Rating) :
    (Rating.add a b).rating = a.rating + b.rating ∧
      (Rating.add a b).toStr = "Rating: " ++ toString (a.rating + b.rating) ++ "/5" ∧
      (Rating.add { rating := 4 } { rating := 5 }).toStr = "Rating: 9/5" :=
  ⟨rfl, rfl, by decide⟩

/-- C3 (counterexample): the pickling example creates `data.pkl` and never
deletes it, so not every tutorial example deletes the scratch files it
creates. -/
theorem pickle_example_leaves_file : ¬ leavesNoScratch pickleDumpExample := by
  decide

/-- C3 (amended): only the temporary-file context-manager example deletes the
file it creates; the pickle and json writing examples create `data.pkl` and
`data.json` with no removal step, and no cited example ever creates
`data.txt` (it is only opened for reading). -/
theorem scratch_file_cleanup_amended (tempName : String) :
    leavesNoScratch (temporaryFileExample tempName) ∧
      createdFiles pickleDumpExample = ["data.pkl"] ∧
      deletedFiles pickleDumpExample = [] ∧
      createdFiles jsonDumpExample = ["data.json"] ∧
      deletedFiles jsonDumpExample = [] ∧
      createdFiles pickleLoadExample = [] ∧
      createdFiles jsonLoadExample = [] ∧
      createdFiles finallyCloseExample = [] := by
  refine ⟨?_, rfl, rfl, rfl, rfl, rfl, rfl, rfl⟩
  intro n hn
  simpa [temporaryFileExample, createdFiles, deletedFiles] using
    (by simpa [temporaryFileExample, createdFiles] using hn : n = tempName)

/-- C4: replaying the notebook's code cells top to bottom from a fresh kernel
produces exactly the recorded stdout of each cell. -/
theorem notebook_stdout_matches :
    notebookStdout =
      [ "1984 by George Orwell, published in 1949"
      , "User: Alice, Age: 28"
      , "Library: City Library with 1 books"
      , "Number of books: 1"
      , "Python Guide by John Doe, published in 2022 (File size: 5MB)"
      , "Learn Python by Jane Doe, published in 2023 (Duration: 300 min)"
      , "['1984 by George Orwell, published in 1949']"
      , "Rating: 9/5"
      , "General" ] := by
  decide

/-- C5: a `Library` starts with no books, `add_book` appends, after adding a
list of books `__len__` returns its length, and `__str__` shows
`"Library: {name} with {n} books"` with `n` the same count `__len__` reports. -/
theorem library_count_spec (name : String) (bs : List Book) (l : Library) (b : Book) :
    (Library.init name).books = [] ∧
      (l.add_book b).books = l.books ++ [b] ∧
      (bs.foldl Library.add_book (Library.init name)).len = bs.length ∧
      l.toStr = "Library: " ++ l.name ++ " with " ++ toString l.len ++ " books" :=
  ⟨rfl, rfl, by simp [Library.len, books_foldl_add_book, Library.init], rfl⟩

/-- C6: `check_age` raises `ValueError` exactly when `age < 0` and otherwise
prints `"Valid age."`; `BankAccount.withdraw` raises
`InsufficientFundsError` exactly when `amount > balance`, leaving the balance
unchanged when it raises and subtracting `amount` when it does not. -/
theorem check_age_withdraw_spec (age amount : Int) (acct : BankAccount) :
    ((check_age age).2 = some "Age cannot be negative." ↔ age < 0) ∧
      (0 ≤ age → check_age age = (["Valid age."], none)) ∧
      ((acct.withdraw amount).2 = some "Insufficient funds for this transaction." ↔
        amount > acct.balance) ∧
      (amount > acct.balance → (acct.withdraw amount).1 = acct) ∧
      (amount ≤ acct.balance →
        acct.withdraw amount = ({ balance := acct.balance - amount }, none)) := by
  refine ⟨?_, fun h => ?_, ?_, fun h => ?_, fun h => ?_⟩
  · unfold check_age
    split <;> simp_all
  · rw [check_age, if_neg (by omega)]
  · unfold BankAccount.withdraw
    split <;> simp_all
  · rw [BankAccount.withdraw, if_pos h]
  · rw [BankAccount.withdraw, if_neg (by omega)]

/-- C6 (witness): the lesson's own scenario — `check_age(-5)` raises,
`check_age(7)` prints, withdrawing 200 from a balance of 100 raises and keeps
the balance, withdrawing 30 succeeds and leaves 70. -/
theorem check_age_withdraw_spec_witness :
    (check_age (-5)).2 = some "Age cannot be negative." ∧
      check_age 7 = (["Valid age."], none) ∧
      ((BankAccount.mk 100).withdraw 200).2 =
        some "Insufficient funds for this transaction." ∧
      ((BankAccount.mk 100).withdraw 200).1 = BankAccount.mk 100 ∧
      (BankAccount.mk 100).withdraw 30 = ({ balance := 100 - 30 }, none) :=
  ⟨(check_age_withdraw_spec (-5) 200 (BankAccount.mk 100)).1.mpr (by decide),
   (check_age_withdraw_spec 7 200 (BankAccount.mk 100)).2.1 (by decide),
   (check_age_withdraw_spec 7 200 (BankAccount.mk 100)).2.2.1.mpr (by decide),
   (check_age_withdraw_spec 7 200 (BankAccount.mk 100)).2.2.2.1 (by decide),
   (check_age_withdraw_spec 7 30 (BankAccount.mk 100)).2.2.2.2 (by decide)⟩

/-- C7: whatever class dictionary the body produced, `MetaBook.__new__`
overwrites `category` with `"General"`, so every class it creates — in
particular `SpecialBook` — has `category = "General"`. -/
theorem metabook_category_always_general (dct : List (String × String)) :
    dictGet (MetaBook.new dct) "category" = some "General" ∧
      SpecialBook.category = some "General" :=
  ⟨dictGet_dictSet_self dct "category" "General", rfl⟩

/-- C8: the subclass overrides extend the parent result: `EBook.get_info` is
exactly `Book.get_info` of the embedded book followed by the file-size
suffix, `AudioBook.get_info` is it followed by the duration suffix, and both
expand to the full formatted strings. -/
theorem subclass_get_info_extends_parent (e : EBook) (a : AudioBook) :
    e.get_info = Book.get_info e.toBook ++ " (File size: " ++ toString e.file_size ++ "MB)" ∧
      a.get_info = Book.get_info a.toBook ++ " (Duration: " ++ toString a.duration ++ " min)" ∧
      e.get_info = e.title ++ " by " ++ e.author ++ ", published in " ++ toString e.year ++
        " (File size: " ++ toString e.file_size ++ "MB)" ∧
      a.get_info = a.title ++ " by " ++ a.author ++ ", published in " ++ toString a.year ++
        " (Duration: " ++ toString a.duration ++ " min)" :=
  ⟨rfl, rfl, rfl, rfl⟩

/-- C9: `set_age` with a positive age reassigns the private age and prints
nothing; with a non-positive age it prints `"Invalid age!"` and leaves the
user exactly as it was (atomic failure); and the constructor applies no
check, so a user may be built with any age, including one `set_age` rejects. -/
theorem set_age_spec (u : User) (n : Int) (name : String) (a : Int) :
    (0 < n → u.set_age n = ({ u with age := n }, [])) ∧
      (n ≤ 0 → u.set_age n = (u, ["Invalid age!"])) ∧
      (User.mk name a).age = a := by
  refine ⟨fun h => ?_, fun h => ?_, rfl⟩
  · rw [User.set_age, if_pos h]
  · rw [User.set_age, if_neg (by omega)]

/-- C9 (witness): a user constructed with the non-positive age −3 (which
`set_age` would reject); `set_age 5` updates, `set_age (-1)` prints and
leaves the user unchanged. -/
theorem set_age_spec_witness :
    (User.mk "Bob" (-3)).set_age 5 = (User.mk "Bob" 5, []) ∧
      (User.mk "Bob" (-3)).set_age (-1) = (User.mk "Bob" (-3), ["Invalid age!"]) ∧
      (User.mk "Bob" (-3)).age = -3 :=
  ⟨(set_age_spec (User.mk "Bob" (-3)) 5 "Bob" (-3)).1 (by decide),
   (set_age_spec (User.mk "Bob" (-3)) (-1) "Bob" (-3)).2.1 (by decide),
   (set_age_spec (User.mk "Bob" (-3)) (-1) "Bob" (-3)).2.2⟩

/-- C10: borrowing appends the book to `borrowed_books` (twice when borrowed
twice — duplicates allowed) and changes nothing else: the member's user and
every library in the state are untouched, since the method performs no
availability check, removal, or transfer. -/
theorem borrow_book_frame (s : LibState) (b : Book) :
    (s.borrow b).member.borrowed_books = s.member.borrowed_books ++ [b] ∧
      (s.borrow b).member.user = s.member.user ∧
      (s.borrow b).libraries = s.libraries ∧
      ((s.borrow b).borrow b).member.borrowed_books = s.member.borrowed_books ++ [b, b] :=
  ⟨rfl, rfl, rfl, by simp [LibState.borrow, LibraryMember.borrow_book]⟩

end PyCrash
